import Mathlib

/-!
Shallow embedding of the runtime test-double engines of the repository
(crate fnmock: FunctionMock, FunctionStub, FunctionFake) together with the
parameter-projection behaviour of the code generated by the derive crate
(fnmock-derive). Rust methods that can panic are embedded as functions into
Except String; methods taking a shared reference return no new state, and the
thread-local RefCell proxies are embedded as explicit state-passing pairs.
-/

/-- Embedding of struct FunctionMock of fnmock/src/function_mock.rs: the
function name used in messages, the optional mock implementation and the
vector of recorded calls. -/
structure FunctionMock (Params Result : Type) where
  name : String
  implementation : Option (Params → Result)
  calls : List Params

/-- Embedding of FunctionMock::new. -/
def FunctionMock.new {Params Result : Type} (function_name : String) :
    FunctionMock Params Result :=
  { name := function_name, implementation := none, calls := [] }

/-- Embedding of FunctionMock::mock_implementation. -/
def FunctionMock.mock_implementation {Params Result : Type}
    (m : FunctionMock Params Result) (new_f : Params → Result) :
    FunctionMock Params Result :=
  { m with implementation := some new_f }

/-- Embedding of FunctionMock::clear_mock. -/
def FunctionMock.clear_mock {Params Result : Type}
    (m : FunctionMock Params Result) : FunctionMock Params Result :=
  { m with implementation := none, calls := [] }

/-- Embedding of FunctionMock::call: first the stored implementation is
unwrapped with expect (panic carries the message built from the name), then
the parameters are pushed onto the call vector, then the implementation is
invoked on the parameters. -/
def FunctionMock.call {Params Result : Type}
    (m : FunctionMock Params Result) (params : Params) :
    Except String (FunctionMock Params Result × Result) :=
  match m.implementation with
  | none => .error (m.name ++ " mock not initialized")
  | some implementation =>
      .ok ({ m with calls := m.calls ++ [params] }, implementation params)

/-- Embedding of FunctionMock::assert_times: assert_eq of the call-vector
length against the expected count, with the format string substituting the
name, then the actual length, then the expected count. -/
def FunctionMock.assert_times {Params Result : Type}
    (m : FunctionMock Params Result) (expected_num_of_calls : Nat) :
    Except String Unit :=
  if m.calls.length = expected_num_of_calls then .ok ()
  else .error ("Expected " ++ m.name ++ " mock to be called " ++
    toString m.calls.length ++ " times, received " ++
    toString expected_num_of_calls)

/-- Embedding of the loop inside FunctionMock::assert_with: iterate over the
recorded calls, setting the flag whenever an entry equals the queried
parameters. -/
def was_called_with_loop {Params : Type} [DecidableEq Params]
    (calls : List Params) (params : Params) : Bool :=
  calls.foldl (fun acc called_params =>
    if called_params = params then true else acc) false

/-- Embedding of FunctionMock::assert_with: the flag loop followed by the
assert with the debug rendering of the parameters in the message. -/
def FunctionMock.assert_with {Params Result : Type} [DecidableEq Params]
    [Repr Params] (m : FunctionMock Params Result) (params : Params) :
    Except String Unit :=
  if was_called_with_loop m.calls params then .ok ()
  else .error ("Expected " ++ m.name ++ " mock to be called with " ++
    reprStr params)

/-- Embedding of struct FunctionStub of fnmock/src/function_stub.rs. -/
structure FunctionStub (ReturnType : Type) where
  name : String
  return_value : Option ReturnType

/-- Embedding of FunctionStub::new. -/
def FunctionStub.new {ReturnType : Type} (function_name : String) :
    FunctionStub ReturnType :=
  { name := function_name, return_value := none }

/-- Embedding of FunctionStub::setup (the clone of the stored value is the
identity under value semantics). -/
def FunctionStub.setup {ReturnType : Type}
    (s : FunctionStub ReturnType) (new_r : ReturnType) :
    FunctionStub ReturnType :=
  { s with return_value := some new_r }

/-- Embedding of FunctionStub::clear. -/
def FunctionStub.clear {ReturnType : Type}
    (s : FunctionStub ReturnType) : FunctionStub ReturnType :=
  { s with return_value := none }

/-- Embedding of FunctionStub::is_set. -/
def FunctionStub.is_set {ReturnType : Type}
    (s : FunctionStub ReturnType) : Bool :=
  s.return_value.isSome

/-- Embedding of FunctionStub::get_return_value: clone of the stored value,
unwrapped with expect carrying the message built from the name. -/
def FunctionStub.get_return_value {ReturnType : Type}
    (s : FunctionStub ReturnType) : Except String ReturnType :=
  match s.return_value with
  | none => .error (s.name ++ " stub not initialized")
  | some v => .ok v

/-- Embedding of struct FunctionFake of fnmock/src/function_fake.rs; the
generic F stands for the Copy function type. -/
structure FunctionFake (F : Type) where
  name : String
  implementation : Option F

/-- Embedding of FunctionFake::new. -/
def FunctionFake.new {F : Type} (function_name : String) : FunctionFake F :=
  { name := function_name, implementation := none }

/-- Embedding of FunctionFake::setup. -/
def FunctionFake.setup {F : Type} (g : FunctionFake F) (new_f : F) :
    FunctionFake F :=
  { g with implementation := some new_f }

/-- Embedding of FunctionFake::clear. -/
def FunctionFake.clear {F : Type} (g : FunctionFake F) : FunctionFake F :=
  { g with implementation := none }

/-- Embedding of FunctionFake::is_set. -/
def FunctionFake.is_set {F : Type} (g : FunctionFake F) : Bool :=
  g.implementation.isSome

/-- Embedding of FunctionFake::get_implementation: expect on the stored
Copy function. -/
def FunctionFake.get_implementation {F : Type} (g : FunctionFake F) :
    Except String F :=
  match g.implementation with
  | none => .error (g.name ++ " fake not initialized")
  | some f => .ok f

/-- Iterated successful-or-failing invocation of FunctionMock::call, used to
speak about a sequence of N calls: each step threads the mock state returned
by call and stops at the first failure. -/
def FunctionMock.call_many {Params Result : Type}
    (m : FunctionMock Params Result) :
    List Params → Except String (FunctionMock Params Result)
  | [] => .ok m
  | p :: ps =>
      match m.call p with
      | .error e => .error e
      | .ok (m1, _) => m1.call_many ps

/-- State-passing embedding of the thread-local RefCell proxy around
FunctionMock::call (borrow_mut): on success the cell holds the mutated mock,
and when the expect inside call panics before any mutation the cell still
holds the untouched mock. -/
def mock_cell_call {Params Result : Type}
    (m : FunctionMock Params Result) (params : Params) :
    FunctionMock Params Result × Except String Result :=
  match m.call params with
  | .error e => (m, .error e)
  | .ok (m1, r) => (m1, .ok r)

/-- State-passing embedding of the RefCell proxy around
FunctionMock::assert_times, which takes a shared borrow: the cell content is
returned unchanged next to the assertion outcome. -/
def mock_cell_assert_times {Params Result : Type}
    (m : FunctionMock Params Result) (expected_num_of_calls : Nat) :
    FunctionMock Params Result × Except String Unit :=
  (m, m.assert_times expected_num_of_calls)

/-- State-passing embedding of the RefCell proxy around
FunctionMock::assert_with, which takes a shared borrow. -/
def mock_cell_assert_with {Params Result : Type} [DecidableEq Params]
    [Repr Params] (m : FunctionMock Params Result) (params : Params) :
    FunctionMock Params Result × Except String Unit :=
  (m, m.assert_with params)

/-- State-passing embedding of the RefCell proxy around
FunctionStub::get_return_value, which takes a shared borrow. -/
def stub_cell_get {ReturnType : Type} (s : FunctionStub ReturnType) :
    FunctionStub ReturnType × Except String ReturnType :=
  (s, s.get_return_value)

/-- Iterated queries through the stub proxy: n consecutive invocations of
get_return_value against the same cell, collecting the outcomes. -/
def stub_cell_get_many {ReturnType : Type} (s : FunctionStub ReturnType) :
    Nat → FunctionStub ReturnType × List (Except String ReturnType)
  | 0 => (s, [])
  | n + 1 =>
      let step := stub_cell_get s
      let rest := stub_cell_get_many step.1 n
      (rest.1, step.2 :: rest.2)

/-- Modelled from the spec: the ignore-aware projection helper of
fnmock-derive (the two-argument create_tuple_from_param_names and
filter_params called from fnmock-derive/src/function_mock/mod.rs are absent
from src, which only carries the ignore-free variants). Following the spec
section on parameter-tuple and ignore-list matching and the comment in
mod.rs that only the not-ignored parameters enter params_to_tuple, it keeps
the arguments whose positions are not in the ignore-index list, in their
original order. -/
def filter_params {α : Type} (args : List α) (ignore_indices : List Nat) :
    List α :=
  (args.enum.filter (fun x => ! ignore_indices.contains x.1)).map Prod.snd

/-- Embedding of the code generated by create_mock_function together with
the call proxy of create_mock_module
(fnmock-derive/src/function_mock/create_mock_implementation.rs): the
generated mock function receives the full argument list and forwards
params_to_tuple, the projection onto the non-ignored positions, to
FunctionMock::call. -/
def generated_mock_call {α Result : Type}
    (m : FunctionMock (List α) Result) (ignore_indices : List Nat)
    (args : List α) : Except String (FunctionMock (List α) Result × Result) :=
  m.call (filter_params args ignore_indices)

/-- Embedding of the assert_with proxy of create_mock_module: it accepts the
filtered (non-ignored) arguments and hands the tuple built from them to
FunctionMock::assert_with. -/
def generated_assert_with {α Result : Type} [DecidableEq α] [Repr α]
    (m : FunctionMock (List α) Result) (filtered_args : List α) :
    Except String Unit :=
  m.assert_with filtered_args

/-- Helper: the flag loop of assert_with computes membership of the queried
parameters in the recorded calls, for any initial flag value. -/
theorem foldl_flag_eq {Params : Type} [DecidableEq Params] (q : Params) :
    ∀ (l : List Params) (b : Bool),
      l.foldl (fun acc c => if c = q then true else acc) b =
        (b || decide (q ∈ l)) := by
  intro l
  induction l with
  | nil => intro b; simp
  | cons x xs ih =>
      intro b
      rw [List.foldl_cons, ih]
      by_cases hx : x = q
      · subst hx
        simp [List.mem_cons]
      · have hq : ¬ q = x := fun h => hx h.symm
        simp [hx, List.mem_cons, hq]

/-- Helper: the assert_with flag equals list membership. -/
theorem was_called_with_loop_eq_mem {Params : Type} [DecidableEq Params]
    (calls : List Params) (q : Params) :
    was_called_with_loop calls q = decide (q ∈ calls) := by
  unfold was_called_with_loop
  rw [foldl_flag_eq]
  simp

/-- Helper: a mock with a configured implementation lets a whole sequence of
calls through, appending each parameter tuple to the call vector in order. -/
theorem call_many_ok {Params Result : Type} (nm : String)
    (f : Params → Result) :
    ∀ (ps acc : List Params),
      FunctionMock.call_many
          { name := nm, implementation := some f, calls := acc } ps =
        .ok { name := nm, implementation := some f, calls := acc ++ ps } := by
  intro ps
  induction ps with
  | nil => intro acc; simp [FunctionMock.call_many]
  | cons p ps ih =>
      intro acc
      simp only [FunctionMock.call_many, FunctionMock.call]
      rw [ih (acc ++ [p])]
      simp

/-- C1: with a configured behavior, call first appends the parameter tuple to
the call log and then returns the behavior applied to it; without one it
fails with the message name plus " mock not initialized" and leaves the cell
state, hence the log, untouched; the log of a fresh mock after a sequence of
successful calls is exactly that sequence. -/
theorem C1_call_contract {Params Result : Type}
    (m : FunctionMock Params Result) (p : Params) (f : Params → Result) :
    (m.implementation = some f →
      m.call p = .ok ({ m with calls := m.calls ++ [p] }, f p)) ∧
    (m.implementation = none →
      m.call p = .error (m.name ++ " mock not initialized") ∧
      (mock_cell_call m p).1 = m) ∧
    (∀ (nm : String) (g : Params → Result) (ps : List Params),
      ((FunctionMock.new nm).mock_implementation g).call_many ps =
        .ok { name := nm, implementation := some g, calls := ps }) := by
  refine ⟨?_, ?_, ?_⟩
  · intro h
    simp [FunctionMock.call, h]
  · intro h
    constructor
    · simp [FunctionMock.call, h]
    · simp [mock_cell_call, FunctionMock.call, h]
  · intro nm g ps
    have h := call_many_ok nm g ps []
    simpa [FunctionMock.new, FunctionMock.mock_implementation] using h

theorem C1_call_contract_witness :
    FunctionMock.call
        { name := "add", implementation := some (fun p => p.1 + p.2),
          calls := [] } ((5 : Int), (3 : Int)) =
      .ok ({ name := "add", implementation := some (fun p => p.1 + p.2),
             calls := [((5 : Int), (3 : Int))] }, 8) :=
  (C1_call_contract
    { name := "add", implementation := some (fun p => p.1 + p.2), calls := [] }
    ((5 : Int), (3 : Int)) (fun p => p.1 + p.2)).1 rfl

/-- C2: on a freshly constructed or freshly cleared engine, the
value-retrieving operation of each of the three engines fails with the
message made of the engine name followed by its role word and "not
initialized", never returning a value. -/
theorem C2_unconfigured_failure {Params Result A F : Type}
    (nm : String) (p : Params) (m : FunctionMock Params Result)
    (s : FunctionStub A) (g : FunctionFake F) :
    (FunctionMock.new nm : FunctionMock Params Result).call p =
      .error (nm ++ " mock not initialized") ∧
    (m.clear_mock).call p = .error (m.name ++ " mock not initialized") ∧
    (FunctionStub.new nm : FunctionStub A).get_return_value =
      .error (nm ++ " stub not initialized") ∧
    (s.clear).get_return_value = .error (s.name ++ " stub not initialized") ∧
    (FunctionFake.new nm : FunctionFake F).get_implementation =
      .error (nm ++ " fake not initialized") ∧
    (g.clear).get_implementation = .error (g.name ++ " fake not initialized") :=
  ⟨rfl, rfl, rfl, rfl, rfl, rfl⟩

/-- C3: after any sequence of N successful calls on a fresh mock,
assert_times N succeeds, and assert_times M for M different from N fails
with a message carrying both the actual count N and the expected count M. -/
theorem C3_assert_times_exact {Params Result : Type} (nm : String)
    (f : Params → Result) (ps : List Params) (M : Nat)
    (hM : M ≠ ps.length) :
    ((FunctionMock.new nm).mock_implementation f).call_many ps =
      .ok { name := nm, implementation := some f, calls := ps } ∧
    FunctionMock.assert_times
      { name := nm, implementation := some f, calls := ps } ps.length =
      .ok () ∧
    FunctionMock.assert_times
      { name := nm, implementation := some f, calls := ps } M =
      .error ("Expected " ++ nm ++ " mock to be called " ++
        toString ps.length ++ " times, received " ++ toString M) := by
  refine ⟨?_, ?_, ?_⟩
  · have h := call_many_ok nm f ps []
    simpa [FunctionMock.new, FunctionMock.mock_implementation] using h
  · simp [FunctionMock.assert_times]
  · have hne : ps.length ≠ M := fun h => hM h.symm
    simp [FunctionMock.assert_times, hne]

theorem C3_assert_times_exact_witness :
    FunctionMock.assert_times
        { name := "add", implementation := some (fun p => p.1 + p.2),
          calls := [((1 : Int), (2 : Int)), (3, 4)] } 5 =
      .error "Expected add mock to be called 2 times, received 5" :=
  (C3_assert_times_exact "add" (fun p : Int × Int => p.1 + p.2)
    [(1, 2), (3, 4)] 5 (by decide)).2.2

/-- C4: assert_with succeeds exactly when some entry of the call log equals
the queried parameter tuple, and fails with the mismatch message exactly
when no entry does, with no condition on how many entries match or on the
total number of calls. -/
theorem C4_assert_with_iff {Params Result : Type} [DecidableEq Params]
    [Repr Params] (m : FunctionMock Params Result) (q : Params) :
    (m.assert_with q = .ok () ↔ q ∈ m.calls) ∧
    (m.assert_with q =
        .error ("Expected " ++ m.name ++ " mock to be called with " ++
          reprStr q) ↔ q ∉ m.calls) := by
  unfold FunctionMock.assert_with
  rw [was_called_with_loop_eq_mem]
  by_cases hmem : q ∈ m.calls <;> simp [hmem]

theorem C4_assert_with_iff_witness :
    FunctionMock.assert_with
        { name := "add", implementation := (none : Option (Int × Int → Int)),
          calls := [((5 : Int), (3 : Int)), (10, 20)] } ((10 : Int), (20 : Int)) =
      .ok () :=
  (C4_assert_with_iff
    { name := "add", implementation := (none : Option (Int × Int → Int)),
      calls := [((5 : Int), (3 : Int)), (10, 20)] }
    ((10 : Int), (20 : Int))).1.mpr (by decide)

/-- C5: whenever assert_times fails, the produced message places the actual
recorded count in the "called ... times" slot and the expected argument in
the "received ..." slot, the swap relative to the documented wording. -/
theorem C5_assert_times_message {Params Result : Type}
    (m : FunctionMock Params Result) (E : Nat) (h : m.calls.length ≠ E) :
    m.assert_times E =
      .error ("Expected " ++ m.name ++ " mock to be called " ++
        toString m.calls.length ++ " times, received " ++ toString E) := by
  simp [FunctionMock.assert_times, h]

theorem C5_assert_times_message_witness :
    FunctionMock.assert_times
        { name := "divide", implementation := (none : Option (Int × Int → Int)),
          calls := [((10 : Int), (2 : Int)), (10, 0), (7, 7)] } 1 =
      .error "Expected divide mock to be called 3 times, received 1" :=
  C5_assert_times_message
    { name := "divide", implementation := (none : Option (Int × Int → Int)),
      calls := [((10 : Int), (2 : Int)), (10, 0), (7, 7)] } 1 (by decide)

/-- Helper: iterated stub queries leave the cell unchanged and return the
same outcome every time. -/
theorem stub_cell_get_many_spec {A : Type} (s : FunctionStub A) :
    ∀ n : Nat,
      stub_cell_get_many s n = (s, List.replicate n s.get_return_value) := by
  intro n
  induction n with
  | zero => rfl
  | succ k ih =>
      simp [stub_cell_get_many, stub_cell_get, ih, List.replicate]

/-- C6 counterexample: with ignore list on position 2, the generated mock
function called with the full argument list [1, 10, 100] records only the
projection [1, 10] in the call log, not the full parameter set. -/
theorem C6_counterexample_recorded_projection :
    (generated_mock_call
        { name := "save_user", implementation := some (fun _ => (0 : Int)),
          calls := [] } [2] [(1 : Int), 10, 100]).map
      (fun x => x.1.calls) = .ok [[(1 : Int), 10]] ∧
    [[(1 : Int), 10]] ≠ [[(1 : Int), 10, 100]] := by
  exact ⟨rfl, by decide⟩

/-- C6 amended: the generated mock function receives the full argument list
but forwards and records only the projection onto the non-ignored positions;
for two calls whose arguments share that projection, assert_with on the
shared projection succeeds and assert_times still counts two calls. -/
theorem C6_ignore_projection {α Result : Type} [DecidableEq α] [Repr α]
    (nm : String) (f : List α → Result) (J : List Nat) (a1 a2 : List α)
    (h : filter_params a1 J = filter_params a2 J) :
    generated_mock_call ((FunctionMock.new nm).mock_implementation f) J a1 =
      .ok ({ name := nm, implementation := some f,
             calls := [filter_params a1 J] }, f (filter_params a1 J)) ∧
    generated_mock_call
        { name := nm, implementation := some f,
          calls := [filter_params a1 J] } J a2 =
      .ok ({ name := nm, implementation := some f,
             calls := [filter_params a1 J, filter_params a2 J] },
        f (filter_params a2 J)) ∧
    filter_params a2 J = filter_params a1 J ∧
    generated_assert_with
        { name := nm, implementation := some f,
          calls := [filter_params a1 J, filter_params a2 J] }
        (filter_params a1 J) = .ok () ∧
    generated_assert_with
        { name := nm, implementation := some f,
          calls := [filter_params a1 J, filter_params a2 J] }
        (filter_params a2 J) = .ok () ∧
    FunctionMock.assert_times
      { name := nm, implementation := some f,
        calls := [filter_params a1 J, filter_params a2 J] } 2 = .ok () := by
  refine ⟨?_, ?_, h.symm, ?_, ?_, ?_⟩
  · simp [generated_mock_call, FunctionMock.call, FunctionMock.new,
      FunctionMock.mock_implementation]
  · simp [generated_mock_call, FunctionMock.call]
  · simp [generated_assert_with, FunctionMock.assert_with,
      was_called_with_loop_eq_mem]
  · simp [generated_assert_with, FunctionMock.assert_with,
      was_called_with_loop_eq_mem]
  · simp [FunctionMock.assert_times]

theorem C6_ignore_projection_witness :
    FunctionMock.assert_times
        { name := "save_user", implementation := some (fun _ => (0 : Int)),
          calls := [filter_params [(1 : Int), 10, 100] [2],
            filter_params [(1 : Int), 10, 200] [2]] } 2 = .ok () :=
  (C6_ignore_projection "save_user" (fun _ => (0 : Int)) [2]
    [(1 : Int), 10, 100] [(1 : Int), 10, 200] (by decide)).2.2.2.2.2

/-- C7: clear returns every engine to the freshly constructed state with the
same name (for the mock including an empty call log), a subsequent retrieval
fails exactly as on a fresh engine, and after configure, clear, configure
with a second value only the second value is observable, with an empty log
before the next call. -/
theorem C7_clear_resets {Params Result A F : Type}
    (m : FunctionMock Params Result) (p : Params)
    (f1 f2 : Params → Result) (s : FunctionStub A) (v1 v2 : A)
    (g : FunctionFake F) (h1 h2 : F) :
    m.clear_mock = FunctionMock.new m.name ∧
    m.clear_mock.call p =
      (FunctionMock.new m.name : FunctionMock Params Result).call p ∧
    s.clear = FunctionStub.new s.name ∧
    g.clear = FunctionFake.new g.name ∧
    ((m.mock_implementation f1).clear_mock.mock_implementation f2).call p =
      .ok ({ name := m.name, implementation := some f2, calls := [p] },
        f2 p) ∧
    ((s.setup v1).clear.setup v2).get_return_value = .ok v2 ∧
    ((g.setup h1).clear.setup h2).get_implementation = .ok h2 :=
  ⟨rfl, rfl, rfl, rfl, rfl, rfl, rfl⟩

/-- C8: after setup with a value, every one of any number of consecutive
queries yields that same value and the stored value stays in place. -/
theorem C8_stub_value_semantics {A : Type} (s : FunctionStub A) (v : A)
    (n : Nat) :
    (s.setup v).get_return_value = .ok v ∧
    stub_cell_get_many (s.setup v) n =
      (s.setup v, List.replicate n (.ok v)) := by
  refine ⟨rfl, ?_⟩
  rw [stub_cell_get_many_spec]
  rfl

/-- C9: is_set on stub and fake is a total Boolean query computed from the
state alone: false on a fresh engine, true right after setup, false right
after clear, and true exactly when a value or implementation is stored. -/
theorem C9_is_set_pure {A F : Type} (nm : String) (s : FunctionStub A)
    (v : A) (g : FunctionFake F) (h : F) :
    (FunctionStub.new nm : FunctionStub A).is_set = false ∧
    (s.setup v).is_set = true ∧
    s.clear.is_set = false ∧
    (s.is_set = true ↔ ∃ w, s.return_value = some w) ∧
    (FunctionFake.new nm : FunctionFake F).is_set = false ∧
    (g.setup h).is_set = true ∧
    g.clear.is_set = false ∧
    (g.is_set = true ↔ ∃ f0, g.implementation = some f0) := by
  refine ⟨rfl, rfl, rfl, ?_, rfl, rfl, rfl, ?_⟩
  · simp [FunctionStub.is_set, Option.isSome_iff_exists]
  · simp [FunctionFake.is_set, Option.isSome_iff_exists]

theorem C9_is_set_pure_witness :
    (FunctionStub.setup (FunctionStub.new "get_config") "test_config").is_set
      = true :=
  (C9_is_set_pure "get_config" (FunctionStub.new "get_config") "test_config"
    (FunctionFake.new "calc" : FunctionFake (Int → Int)) (fun x => x)).2.1

/-- C10: the two assertion operations read only the name and the call log,
never the configured behavior; on a fresh or cleared mock assert_times 0
succeeds and assert_with fails with the mismatch message rather than the
not-initialized one; both are shared-borrow operations that leave the cell
state unchanged. -/
theorem C10_asserts_independent_of_behavior {Params Result : Type}
    [DecidableEq Params] [Repr Params] (m : FunctionMock Params Result)
    (f0 : Option (Params → Result)) (e : Nat) (p : Params) (nm : String) :
    ({ m with implementation := f0 } :
        FunctionMock Params Result).assert_times e = m.assert_times e ∧
    ({ m with implementation := f0 } :
        FunctionMock Params Result).assert_with p = m.assert_with p ∧
    (FunctionMock.new nm : FunctionMock Params Result).assert_times 0 =
      .ok () ∧
    m.clear_mock.assert_times 0 = .ok () ∧
    (FunctionMock.new nm : FunctionMock Params Result).assert_with p =
      .error ("Expected " ++ nm ++ " mock to be called with " ++
        reprStr p) ∧
    m.clear_mock.assert_with p =
      .error ("Expected " ++ m.name ++ " mock to be called with " ++
        reprStr p) ∧
    mock_cell_assert_times m e = (m, m.assert_times e) ∧
    mock_cell_assert_with m p = (m, m.assert_with p) :=
  ⟨rfl, rfl, rfl, rfl, rfl, rfl, rfl, rfl⟩
